import Mathlib

/-!
# Verification of the WeCom digest script

A shallow embedding, in Lean 4, of `scripts/send_wecom_digest.py`: a script
that formats a JSON snapshot of news items into a size-bounded markdown
message and delivers it to a WeCom robot webhook.

Modelling conventions:
* Python strings are modelled as `List Char` (Python strings are sequences
  of code points; `len`, slicing and `strip` act on code points).
* `len(s.encode("utf-8"))` is modelled as the sum of the UTF-8 sizes of the
  characters (`utf8Len`).
* Python values reachable from the snapshot JSON follow the data model of
  the script (scalar fields on items, item sequences on the snapshot):
  atoms (`None`, `str`, `int`, `bool`), sequences of atoms-or-records, and
  records mapping string keys to atoms.  Dictionaries are modelled as
  association lists (first binding wins, as for a Python `dict`).
* `datetime.astimezone` applied to a *naive* datetime uses the ambient
  system time zone; that ambient offset (in minutes east of UTC) is threaded
  explicitly as a `localOff : Int` parameter.  Offset-aware datetimes do not
  consult it.
* The network call of `send_wecom_markdown` is abstracted by passing the
  HTTP response (status code and parsed JSON body) as an argument; the
  function is modelled as the pair of the request payload it posts and the
  outcome it computes from the response.
-/

/-- Python strings, as lists of code points. -/
abbrev Str := List Char

/-- Coerce a Lean string literal to the Python string model. -/
def strL (s : String) : Str := s.toList

/-- The ASCII whitespace characters stripped by Python's `str.strip()`
(the Unicode-only space characters are not used by this script). -/
def pyIsSpace (c : Char) : Bool :=
  c = ' ' || c = '\t' || c = '\n' || c = '\r' || c = '\x0b' || c = '\x0c'

/-- Remove trailing whitespace, as the right half of `str.strip()`. -/
def trimRight (s : Str) : Str := (s.reverse.dropWhile pyIsSpace).reverse

/-- Python's `str.strip()`: remove leading and trailing whitespace. -/
def pyStrip (s : Str) : Str := trimRight (s.dropWhile pyIsSpace)

/-- Python's `.replace("\n", " ")`: collapse newlines to spaces. -/
def collapseNl (s : Str) : Str := s.map (fun c => if c = '\n' then ' ' else c)

/-- `len(s.encode("utf-8"))`: the UTF-8 encoded byte length. -/
def utf8Len (s : Str) : Nat := (s.map Char.utf8Size).sum

/-- `shorten(text, limit)` from the script:

    def shorten(text, limit):
        s = (text or "").replace("\n", " ").strip()
        if len(s) <= limit: return s
        if limit <= 1: return "…"
        return s[: limit - 1] + "…"

(`text or ""` is the identity on strings, since `"" or "" == ""`.) -/
def shorten (text : Str) (limit : Int) : Str :=
  let s := pyStrip (collapseNl text)
  if (s.length : Int) ≤ limit then s
  else if limit ≤ 1 then ['…']
  else s.take (limit - 1).toNat ++ ['…']

/-- Decimal rendering of a natural number, as Python's `str(n)`. -/
def natStr (n : Nat) : Str := Nat.toDigits 10 n

/-- Decimal rendering of an integer, as Python's `str(n)`. -/
def intStr (n : Int) : Str :=
  if n < 0 then '-' :: natStr n.toNat else natStr n.toNat

/-- Scalar Python values appearing as fields of the snapshot JSON. -/
inductive PyAtom where
  | none_ : PyAtom
  | str (s : Str) : PyAtom
  | int (n : Int) : PyAtom
  | bool (b : Bool) : PyAtom
deriving DecidableEq

/-- One news item: a record with scalar fields (spec §3: all item fields
are optional strings; scalars cover every field this script reads). -/
abbrev Item := List (Str × PyAtom)

/-- An element of an item sequence: either a scalar or a record.
`pick_ai_items` keeps the records and silently discards the rest. -/
inductive PyElem where
  | atom (a : PyAtom) : PyElem
  | dict (d : Item) : PyElem
deriving DecidableEq

/-- A value of the snapshot record: a scalar, a sequence, or a record. -/
inductive PyVal where
  | atom (a : PyAtom) : PyVal
  | list (l : List PyElem) : PyVal
  | dict (d : Item) : PyVal
deriving DecidableEq

/-- The snapshot: a record mapping string keys to values. -/
abbrev Snapshot := List (Str × PyVal)

/-- Python truthiness for scalars. -/
def atomTruthy : PyAtom → Bool
  | .none_ => false
  | .str s => s ≠ []
  | .int n => n ≠ 0
  | .bool b => b

/-- Python truthiness. -/
def pyTruthy : PyVal → Bool
  | .atom a => atomTruthy a
  | .list l => l ≠ []
  | .dict d => d ≠ []

/-- Python `a or b`: the first operand if truthy, else the second. -/
def pyOrV (a b : PyVal) : PyVal := if pyTruthy a then a else b

/-- `snapshot.get(k)`: `None` when the key is absent. -/
def dget (snapshot : Snapshot) (k : Str) : PyVal :=
  (snapshot.lookup k).getD (.atom .none_)

/-- `item.get(k)` on an item record: `None` when the key is absent. -/
def dgetA (item : Item) (k : Str) : PyAtom :=
  (item.lookup k).getD .none_

/-- Python `a or b` on scalars. -/
def pyOrA (a b : PyAtom) : PyAtom := if atomTruthy a then a else b

/-- `repr` of a scalar, as used when a scalar is rendered inside a
container (string escaping is not modelled; no claim depends on it). -/
def reprAtom : PyAtom → Str
  | .none_ => strL "None"
  | .str s => '\'' :: s ++ ['\'']
  | .int n => intStr n
  | .bool b => if b then strL "True" else strL "False"

/-- `str` of a scalar. -/
def strAtom : PyAtom → Str
  | .str s => s
  | a => reprAtom a

/-- `repr` of an item record, as used by `str` on containers. -/
def reprItem (d : Item) : Str :=
  '{' :: List.intercalate (strL ", ")
      (d.map (fun kv => '\'' :: kv.1 ++ strL "': " ++ reprAtom kv.2)) ++ ['}']

/-- `repr` of a sequence element. -/
def reprElem : PyElem → Str
  | .atom a => reprAtom a
  | .dict d => reprItem d

/-- `str` of a snapshot value. -/
def strVal : PyVal → Str
  | .atom a => strAtom a
  | .list l =>
      '[' :: List.intercalate (strL ", ") (l.map reprElem) ++ [']']
  | .dict d => reprItem d

/-- `pick_ai_items(snapshot)` from the script:

    def pick_ai_items(snapshot):
        raw = snapshot.get("items_ai") or snapshot.get("items") or []
        if not isinstance(raw, list):
            return []
        return [it for it in raw if isinstance(it, dict)]
-/
def pick_ai_items (snapshot : Snapshot) : List Item :=
  let raw := pyOrV (dget snapshot (strL "items_ai"))
      (pyOrV (dget snapshot (strL "items")) (.list []))
  match raw with
  | .list l => l.filterMap (fun e => match e with
      | .dict d => some d
      | .atom _ => none)
  | _ => []


/-- A parsed `datetime`: calendar fields plus an optional UTC offset in
minutes (`none` for a naive datetime). -/
structure PyDateTime where
  year : Nat
  month : Nat
  day : Nat
  hour : Nat
  minute : Nat
  second : Nat
  off : Option Int

/-- Value of one decimal digit. -/
def digitVal (c : Char) : Option Nat :=
  if c.isDigit then some (c.toNat - 48) else none

/-- Value of a two-digit group. -/
def dig2 (a b : Char) : Option Nat := do
  let x ← digitVal a
  let y ← digitVal b
  pure (10 * x + y)

/-- Days in a month of the proleptic Gregorian calendar
(as validated by the `datetime` constructor). -/
def daysInMonth (y m : Nat) : Nat :=
  if m = 2 then
    if y % 4 = 0 && (y % 100 ≠ 0 || y % 400 = 0) then 29 else 28
  else if m = 4 || m = 6 || m = 9 || m = 11 then 30
  else 31

/-- Consume an optional fractional-seconds group `.fff` or `.ffffff`
(Python accepts exactly three or six digits), returning the rest. -/
def dropFrac : Str → Option Str
  | '.' :: a :: b :: c :: rest =>
      if (digitVal a).isSome && (digitVal b).isSome && (digitVal c).isSome then
        match rest with
        | d :: e :: f :: rest2 =>
            if (digitVal d).isSome then
              if (digitVal e).isSome && (digitVal f).isSome then some rest2
              else none
            else some rest
        | d :: _ => if (digitVal d).isSome then none else some rest
        | [] => some rest
      else none
  | '.' :: _ => none
  | s => some s

/-- Parse the optional trailing UTC offset `±HH:MM` (`some none` when the
string is empty, i.e. a naive datetime; offsets with a seconds component
are not used by this system and are not modelled). -/
def parseOffset : Str → Option (Option Int)
  | [] => some none
  | sign :: a :: b :: ':' :: c :: d :: [] => do
      if sign = '+' || sign = '-' then
        let oh ← dig2 a b
        let om ← dig2 c d
        if oh ≤ 23 && om ≤ 59 then
          let m : Int := oh * 60 + om
          pure (some (if sign = '-' then -m else m))
        else none
      else none
  | _ => none

/-- Parse the time-of-day part `HH[:MM[:SS[.frac]]][±HH:MM]`. -/
def parseIsoTime (s : Str) : Option (Nat × Nat × Nat × Option Int) :=
  match s with
  | h1 :: h2 :: r => do
      let hh ← dig2 h1 h2
      if hh ≥ 24 then none else
      match r with
      | ':' :: m1 :: m2 :: r2 => do
          let mm ← dig2 m1 m2
          if mm ≥ 60 then none else
          match r2 with
          | ':' :: s1 :: s2 :: r3 => do
              let ss ← dig2 s1 s2
              if ss ≥ 60 then none else do
              let r4 ← dropFrac r3
              let o ← parseOffset r4
              pure (hh, mm, ss, o)
          | _ => do
              let o ← parseOffset r2
              pure (hh, mm, 0, o)
      | _ => do
          let o ← parseOffset r
          pure (hh, 0, 0, o)
  | _ => none

/-- `datetime.fromisoformat` (the grammar
`YYYY-MM-DD[*HH[:MM[:SS[.fff[fff]]]][±HH:MM]]`, with any single character
as the date/time separator), including the range validation done by the
`datetime` constructor.  Returns `none` where Python raises. -/
def parseIso (s : Str) : Option PyDateTime :=
  match s with
  | y1 :: y2 :: y3 :: y4 :: '-' :: mo1 :: mo2 :: '-' :: d1 :: d2 :: rest => do
      let a ← dig2 y1 y2
      let b ← dig2 y3 y4
      let y := 100 * a + b
      let mo ← dig2 mo1 mo2
      let dd ← dig2 d1 d2
      if 1 ≤ y && 1 ≤ mo && mo ≤ 12 && 1 ≤ dd && dd ≤ daysInMonth y mo then
        match rest with
        | [] => pure ⟨y, mo, dd, 0, 0, 0, none⟩
        | _ :: timePart => do
            let (hh, mm, ss, o) ← parseIsoTime timePart
            pure ⟨y, mo, dd, hh, mm, ss, o⟩
      else none
  | _ => none

/-- `iso_str.replace("Z", "+00:00")`: every `Z` becomes `+00:00`. -/
def replaceZ (s : Str) : Str :=
  s.flatMap (fun c => if c = 'Z' then strL "+00:00" else [c])

/-- Days since 1970-01-01 of a proleptic-Gregorian date
(the standard civil-from-days correspondence). -/
def daysFromCivil (y m d : Int) : Int :=
  let y' := if m ≤ 2 then y - 1 else y
  let era := y'.fdiv 400
  let yoe := y' - era * 400
  let mp := (m + 9).emod 12
  let doy := (153 * mp + 2).fdiv 5 + d - 1
  let doe := yoe * 365 + yoe.fdiv 4 - yoe.fdiv 100 + doy
  era * 146097 + doe - 719468

/-- Inverse of `daysFromCivil`: the date `(y, m, d)` of a day number. -/
def civilFromDays (z : Int) : Int × Int × Int :=
  let z' := z + 719468
  let era := z'.fdiv 146097
  let doe := z' - era * 146097
  let yoe := (doe - doe.fdiv 1460 + doe.fdiv 36524 - doe.fdiv 146096).fdiv 365
  let y := yoe + era * 400
  let doy := doe - (365 * yoe + yoe.fdiv 4 - yoe.fdiv 100)
  let mp := (5 * doy + 2).fdiv 153
  let d := doy - (153 * mp + 2).fdiv 5 + 1
  let m := mp + (if mp < 10 then 3 else -9)
  (if m ≤ 2 then y + 1 else y, m, d)

/-- Zero-padded two-digit rendering, as `strftime`'s `%m`/`%d`/`%H`/`%M`. -/
def pad2 (n : Int) : Str :=
  if n < 10 then '0' :: natStr n.toNat else natStr n.toNat

/-- `dt.astimezone(DEFAULT_TZ).strftime("%m-%d %H:%M")` for
`DEFAULT_TZ = Asia/Shanghai` (UTC+8, no DST in the modern era).  A naive
`dt` is interpreted in the ambient zone `localOff` (minutes east of UTC),
as `astimezone` interprets naive datetimes in system local time. -/
def formatBeijing (localOff : Int) (dt : PyDateTime) : Str :=
  let offMin := dt.off.getD localOff
  let utcMin := daysFromCivil dt.year dt.month dt.day * 1440
      + ((dt.hour : Int) * 60 + dt.minute) - offMin
  let bj := utcMin + 8 * 60
  let days := bj.fdiv 1440
  let rem := bj.emod 1440
  let c := civilFromDays days
  pad2 c.2.1 ++ strL "-" ++ pad2 c.2.2 ++ strL " "
    ++ pad2 (rem.fdiv 60) ++ strL ":" ++ pad2 (rem.emod 60)

/-- `parse_iso_to_bj(iso_str)` from the script:

    def parse_iso_to_bj(iso_str):
        if not iso_str:
            return "--:--"
        try:
            dt = datetime.fromisoformat(iso_str.replace("Z", "+00:00"))
            return dt.astimezone(DEFAULT_TZ).strftime("%m-%d %H:%M")
        except Exception:
            return str(iso_str)

The ambient local time zone (used by `astimezone` only when the parsed
datetime is naive) is threaded explicitly as `localOff`. -/
def parse_iso_to_bj (localOff : Int) (iso_str : Option Str) : Str :=
  match iso_str with
  | none => strL "--:--"
  | some s =>
      if s = [] then strL "--:--"
      else
        match parseIso (replaceZ s) with
        | none => s
        | some dt => formatBeijing localOff dt


/-- `_header_lines(snapshot, keyword, total, site_url)` from the script:

    def _header_lines(snapshot, keyword, total, site_url):
        generated_at = parse_iso_to_bj(str(snapshot.get("generated_at") or ""))
        lines = []
        if keyword:
            lines.append(keyword)
        lines.append("## AI 新闻日报（近24小时）")
        lines.append(f"> 生成时间：{generated_at}（北京时间）")
        lines.append(f"> AI 相关条数：{total}")
        if site_url:
            lines.append(f"> 查看详情：[{site_url}]({site_url})")
        lines.append("")
        return lines
-/
def _header_lines (localOff : Int) (snapshot : Snapshot) (keyword : Str)
    (total : Nat) (site_url : Option Str) : List Str :=
  let generated_at := parse_iso_to_bj localOff
      (some (strVal (pyOrV (dget snapshot (strL "generated_at")) (.atom (.str [])))))
  (if keyword ≠ [] then [keyword] else [])
    ++ [strL "## AI 新闻日报（近24小时）",
        strL "> 生成时间：" ++ generated_at ++ strL "（北京时间）",
        strL "> AI 相关条数：" ++ natStr total]
    ++ (match site_url with
        | some u => if u ≠ [] then [strL "> 查看详情：[" ++ u ++ strL "](" ++ u ++ strL ")"] else []
        | none => [])
    ++ [[]]

/-- The two lines rendered for the item with (1-based) index `idx`. -/
def itemBlock (localOff : Int) (title_limit : Int) (idx : Nat) (item : Item) : List Str :=
  let title := shorten
      (strAtom (pyOrA (dgetA item (strL "title_bilingual"))
        (pyOrA (dgetA item (strL "title")) (.str (strL "Untitled")))))
      title_limit
  let url := pyStrip (strAtom (pyOrA (dgetA item (strL "url")) (.str [])))
  let site :=
    let s := pyStrip (strAtom (pyOrA (dgetA item (strL "site_name")) (.str [])))
    if s ≠ [] then s else strL "-"
  let source :=
    let s := pyStrip (strAtom (pyOrA (dgetA item (strL "source")) (.str [])))
    if s ≠ [] then s else strL "-"
  let published := parse_iso_to_bj localOff
      (some (strAtom (pyOrA (dgetA item (strL "published_at")) (.str []))))
  [if url ≠ [] then natStr idx ++ strL ". [" ++ title ++ strL "](" ++ url ++ strL ")"
   else natStr idx ++ strL ". " ++ title,
   strL "> " ++ site ++ strL "/" ++ source ++ strL " · " ++ published]

/-- `_item_lines(items, top_n, title_limit)` from the script:

    def _item_lines(items, top_n, title_limit):
        lines = []
        for idx, item in enumerate(items[:top_n], 1):
            title = shorten(str(item.get("title_bilingual") or item.get("title") or "Untitled"), title_limit)
            url = str(item.get("url") or "").strip()
            site = str(item.get("site_name") or "").strip() or "-"
            source = str(item.get("source") or "").strip() or "-"
            published = parse_iso_to_bj(str(item.get("published_at") or ""))
            lines.append(f"{idx}. [{title}]({url})" if url else f"{idx}. {title}")
            lines.append(f"> {site}/{source} · {published}")
        return lines
-/
def _item_lines (localOff : Int) (items : List Item) (top_n : Nat)
    (title_limit : Int) : List Str :=
  ((items.take top_n).enum.map
    (fun p => itemBlock localOff title_limit (p.1 + 1) p.2)).flatten

/-- One candidate body of the size-fitting loop of `build_digest_markdown`:

        body = _item_lines(items, shown, title_limit)
        if total > shown:
            body.extend(["", f"> 其余 {total - shown} 条请查看页面或仓库数据"])
        content = "\n".join(header + body).strip()
-/
def renderContent (localOff : Int) (header : List Str) (items : List Item)
    (total shown tl : Nat) : Str :=
  let body := _item_lines localOff items shown (tl : Int)
      ++ (if shown < total then
            [[], strL "> 其余 " ++ natStr (total - shown) ++ strL " 条请查看页面或仓库数据"]
          else [])
  pyStrip (List.intercalate (strL "\n") (header ++ body))

/-- `min_items = 1 if total else 0`: the floor of the shown-count. -/
def min_items (total : Nat) : Nat := if total = 0 then 0 else 1

/-- The shown-count before any size-fitting:

        shown = min(max(top_n, 0), total)
        shown = shown if shown > 0 else min(total, 3)
-/
def initial_shown (top_n : Int) (total : Nat) : Int :=
  let shown := min (max top_n 0) (total : Int)
  if shown > 0 then shown else min (total : Int) 3

/-- The size-fitting loop of `build_digest_markdown`, with an explicit
iteration budget (`fuel`); `none` when the budget runs out.  Used to
express and prove termination of the loop. -/
def fitLoopFuel (localOff : Int) (header : List Str) (items : List Item)
    (total : Nat) (byte_limit : Int) (mi : Nat) :
    Nat → Nat → Nat → Option (Str × Nat)
  | 0, _, _ => none
  | fuel + 1, shown, tl =>
    let content := renderContent localOff header items total shown tl
    if (utf8Len content : Int) ≤ byte_limit then some (content, shown)
    else if mi < shown then
      fitLoopFuel localOff header items total byte_limit mi fuel (shown - 1) tl
    else if 20 < tl then
      fitLoopFuel localOff header items total byte_limit mi fuel shown (tl - 4)
    else some (content, shown)

/-- The size-fitting loop of `build_digest_markdown`:

        while True:
            body = ...; content = "\n".join(header + body).strip()
            if len(content.encode("utf-8")) <= byte_limit:
                return content, shown
            if shown > min_items:
                shown -= 1
                continue
            if title_limit > 20:
                title_limit -= 4
                continue
            return content, shown
-/
def fitLoop (localOff : Int) (header : List Str) (items : List Item)
    (total : Nat) (byte_limit : Int) (mi : Nat) (shown tl : Nat) : Str × Nat :=
  let content := renderContent localOff header items total shown tl
  if (utf8Len content : Int) ≤ byte_limit then (content, shown)
  else if h1 : mi < shown then
    fitLoop localOff header items total byte_limit mi (shown - 1) tl
  else if h2 : 20 < tl then
    fitLoop localOff header items total byte_limit mi shown (tl - 4)
  else (content, shown)
termination_by shown + tl
decreasing_by
  · omega
  · omega

/-- `build_digest_markdown(snapshot, keyword=..., top_n=..., byte_limit=...,
site_url=...)` from the script:

    items = pick_ai_items(snapshot)
    total = len(items)
    shown = min(max(top_n, 0), total)
    shown = shown if shown > 0 else min(total, 3)
    title_limit = 46
    header = _header_lines(snapshot, keyword, total, site_url)
    min_items = 1 if total else 0
    while True: ...  (the size-fitting loop above)
-/
def build_digest_markdown (localOff : Int) (snapshot : Snapshot) (keyword : Str)
    (top_n : Int) (byte_limit : Int) (site_url : Option Str) : Str × Nat :=
  let items := pick_ai_items snapshot
  let total := items.length
  let shown := initial_shown top_n total
  let header := _header_lines localOff snapshot keyword total site_url
  fitLoop localOff header items total byte_limit (min_items total) shown.toNat 46

/-- The first line of a rendered message. -/
def firstLine (s : Str) : Str := s.takeWhile (fun c => c ≠ '\n')

/-- Python's `int(x)` on the scalar values that can appear as `errcode`
(`none` where Python raises `TypeError`/`ValueError`): integers are kept,
booleans become `0`/`1`, and strings are parsed as optionally signed
decimal integers after stripping surrounding whitespace. -/
def pyInt (a : PyAtom) : Option Int :=
  match a with
  | .int n => some n
  | .bool b => some (if b then 1 else 0)
  | .str s =>
      let t := pyStrip s
      let (sign, digitsPart) : Int × Str :=
        match t with
        | '+' :: r => (1, r)
        | '-' :: r => (-1, r)
        | r => (1, r)
      if digitsPart ≠ [] && digitsPart.all (fun c => (digitVal c).isSome) then
        some (sign * (digitsPart.foldl (fun acc c => 10 * acc + ((digitVal c).getD 0)) 0 : Nat))
      else none
  | .none_ => none

/-- Outcome of `send_wecom_markdown`'s handling of the HTTP response. -/
inductive SendOutcome where
  /-- `resp.raise_for_status()` raised: HTTP status `status` ≥ 400. -/
  | httpError (status : Nat) : SendOutcome
  /-- `data.get(...)` or `int(...)` raised (body not a record, or the
  `errcode` value not convertible to an integer). -/
  | typeError : SendOutcome
  /-- `RuntimeError(f"WeCom push failed: {data}")`: the destination
  rejected the delivery; the full response body is carried along. -/
  | pushFailed (data : PyVal) : SendOutcome
  /-- The parsed response record is returned. -/
  | ok (data : PyVal) : SendOutcome
deriving DecidableEq

/-- The JSON request body posted by `send_wecom_markdown`:

    payload = {"msgtype": "markdown", "markdown": {"content": content}}

(the nested record maps the key `"content"` to the content string). -/
def wecomPayload (content : Str) : Snapshot :=
  [(strL "msgtype", .atom (.str (strL "markdown"))),
   (strL "markdown", .dict [(strL "content", .str content)])]

/-- `send_wecom_markdown(webhook_url, content, timeout)` from the script:

    payload = {"msgtype": "markdown", "markdown": {"content": content}}
    resp = requests.post(webhook_url, json=payload, timeout=timeout)
    resp.raise_for_status()
    data = resp.json()
    if int(data.get("errcode", -1)) != 0:
        raise RuntimeError(f"WeCom push failed: {data}")
    return data

The single network exchange is abstracted by its observable pair: the
status code and parsed JSON body of the response.  The result is the
request payload actually posted together with the computed outcome. -/
def send_wecom_markdown (content : Str) (status : Nat) (body : PyVal) :
    Snapshot × SendOutcome :=
  (wecomPayload content,
    if 400 ≤ status then .httpError status
    else
      match body with
      | .dict d =>
          match pyInt ((d.lookup (strL "errcode")).getD (.int (-1))) with
          | none => .typeError
          | some n => if n ≠ 0 then .pushFailed (.dict d) else .ok (.dict d)
      | _ => .typeError)

/-- The selection rule as the spec's §3 invariant has to be amended to
match the code: Python's `or` chain keys on *truthiness*, not presence.
The value consulted is `items_ai` when it is truthy and `items`
otherwise, and its record entries are kept (a non-sequence value yields
the empty selection). -/
def records_of (v : PyVal) : List Item :=
  match v with
  | .list l => l.filterMap (fun e => match e with
      | .dict d => some d
      | .atom _ => none)
  | _ => []

/-! ## Helper lemmas -/

/-- A fuel budget of one more than `shown + title_limit` always suffices:
every iteration of the size-fitting loop strictly decreases that sum. -/
theorem fitLoopFuel_sufficient (localOff : Int) (header : List Str)
    (items : List Item) (total : Nat) (byte_limit : Int) (mi : Nat) :
    ∀ (fuel shown tl : Nat), shown + tl < fuel →
      fitLoopFuel localOff header items total byte_limit mi fuel shown tl
        = some (fitLoop localOff header items total byte_limit mi shown tl) := by
  intro fuel
  induction fuel with
  | zero => intro shown tl h; omega
  | succ f ih =>
    intro shown tl h
    rw [fitLoop]
    simp only [fitLoopFuel]
    by_cases hfit : (utf8Len (renderContent localOff header items total shown tl) : Int)
        ≤ byte_limit
    · simp [hfit]
    · by_cases h1 : mi < shown
      · simp [hfit, h1, ih (shown - 1) tl (by omega)]
      · by_cases h2 : 20 < tl
        · simp [hfit, h1, h2, ih shown (tl - 4) (by omega)]
        · simp [hfit, h1, h2]

/-- Behaviour of the size-fitting loop: starting at or above the floor
`mi` with a title limit in the reachable set (`≥ 18`, `≡ 2 mod 4`), the
loop returns either a content within the byte budget, or — with the
shrink budget exhausted — the render at the floor state `(mi, 18)`; the
returned shown-count stays between `mi` and its starting value. -/
theorem fitLoopFuel_spec (localOff : Int) (header : List Str)
    (items : List Item) (total : Nat) (byte_limit : Int) (mi : Nat) :
    ∀ (fuel shown tl : Nat) (c : Str) (s : Nat), mi ≤ shown → 18 ≤ tl → tl % 4 = 2 →
      fitLoopFuel localOff header items total byte_limit mi fuel shown tl = some (c, s) →
      ((utf8Len c : Int) ≤ byte_limit ∨
        (s = mi ∧ c = renderContent localOff header items total mi 18))
        ∧ mi ≤ s ∧ s ≤ shown := by
  intro fuel
  induction fuel with
  | zero => intro shown tl c s _ _ _ heq; simp [fitLoopFuel] at heq
  | succ f ih =>
    intro shown tl c s hmi htl hmod heq
    simp only [fitLoopFuel] at heq
    by_cases hfit : (utf8Len (renderContent localOff header items total shown tl) : Int)
        ≤ byte_limit
    · simp [hfit] at heq
      obtain ⟨hc, hs⟩ := heq
      subst hc; subst hs
      exact ⟨Or.inl hfit, hmi, le_refl _⟩
    · by_cases h1 : mi < shown
      · simp [hfit, h1] at heq
        have := ih (shown - 1) tl c s (by omega) htl hmod heq
        exact ⟨this.1, this.2.1, by omega⟩
      · by_cases h2 : 20 < tl
        · simp [hfit, h1, h2] at heq
          have := ih shown (tl - 4) c s hmi (by omega) (by omega) heq
          exact ⟨this.1, this.2⟩
        · simp [hfit, h1, h2] at heq
          obtain ⟨hc, hs⟩ := heq
          have hs' : shown = mi := by omega
          have htl' : tl = 18 := by omega
          subst hc; subst hs
          exact ⟨Or.inr ⟨hs'.symm ▸ hs', by rw [hs', htl']⟩, hmi, le_refl _⟩

/-- Every content the size-fitting loop can return is the render of some
loop state. -/
theorem fitLoopFuel_shape (localOff : Int) (header : List Str)
    (items : List Item) (total : Nat) (byte_limit : Int) (mi : Nat) :
    ∀ (fuel shown tl : Nat) (c : Str) (s : Nat),
      fitLoopFuel localOff header items total byte_limit mi fuel shown tl = some (c, s) →
      ∃ s' t', c = renderContent localOff header items total s' t' := by
  intro fuel
  induction fuel with
  | zero => intro shown tl c s heq; simp [fitLoopFuel] at heq
  | succ f ih =>
    intro shown tl c s heq
    simp only [fitLoopFuel] at heq
    by_cases hfit : (utf8Len (renderContent localOff header items total shown tl) : Int)
        ≤ byte_limit
    · simp [hfit] at heq
      exact ⟨shown, tl, heq.1.symm⟩
    · by_cases h1 : mi < shown
      · simp [hfit, h1] at heq
        exact ih (shown - 1) tl c s heq
      · by_cases h2 : 20 < tl
        · simp [hfit, h1, h2] at heq
          exact ih shown (tl - 4) c s heq
        · simp [hfit, h1, h2] at heq
          exact ⟨shown, tl, heq.1.symm⟩

/-- The starting shown-count is never negative. -/
theorem initial_shown_nonneg (top_n : Int) (total : Nat) :
    0 ≤ initial_shown top_n total := by
  simp only [initial_shown]
  split <;> omega

/-- The starting shown-count is at or above the loop floor. -/
theorem min_items_le_initial (top_n : Int) (total : Nat) :
    min_items total ≤ (initial_shown top_n total).toNat := by
  simp only [initial_shown, min_items]
  split <;> split <;> omega

/-- `dropWhile` distributes over an append whose first part retains at
least one element. -/
theorem dropWhile_append_of_exists {p : Char → Bool} {a b : Str}
    (h : ∃ c ∈ a, p c = false) :
    List.dropWhile p (a ++ b) = List.dropWhile p a ++ b := by
  rw [List.dropWhile_append]
  have hne : List.dropWhile p a ≠ [] := by
    rw [Ne, List.dropWhile_eq_nil_iff]
    obtain ⟨c, hc, hpc⟩ := h
    intro hall
    exact absurd (hall c hc) (by simp [hpc])
  simp [List.isEmpty_iff, hne]

/-- `trimRight` leaves a prefix intact when the rest of the string still
contains a non-whitespace character. -/
theorem trimRight_append {a b : Str} (h : ∃ c ∈ b, pyIsSpace c = false) :
    trimRight (a ++ b) = a ++ trimRight b := by
  unfold trimRight
  rw [List.reverse_append,
    dropWhile_append_of_exists (by obtain ⟨c, hc, hpc⟩ := h; exact ⟨c, List.mem_reverse.mpr hc, hpc⟩),
    List.reverse_append, List.reverse_reverse]

/-- The first line of a string that begins with a newline-free segment
followed by a newline. -/
theorem firstLine_append {a b : Str} (h : ∀ c ∈ a, c ≠ '\n') :
    firstLine (a ++ '\n' :: b) = a := by
  unfold firstLine
  rw [List.takeWhile_append_of_pos (by intro c hc; simpa using h c hc)]
  simp

/-- Two-line-or-more `intercalate` unfolding. -/
theorem intercalate_cons₂ (s a b : Str) (l : List Str) :
    List.intercalate s (a :: b :: l) = a ++ s ++ List.intercalate s (b :: l) := by
  simp [List.intercalate, List.intersperse_cons_cons, List.append_assoc]

/-- With no items the candidate body is empty, so every loop state renders
the header-only content. -/
theorem renderContent_nil (localOff : Int) (header : List Str) (s t : Nat) :
    renderContent localOff header [] 0 s t
      = pyStrip (List.intercalate (strL "\n") header) := by
  simp [renderContent, _item_lines]

/-- A snapshot with no selected items always starts the loop at shown-count
zero. -/
theorem initial_shown_zero (top_n : Int) : initial_shown top_n 0 = 0 := by
  simp only [initial_shown]
  split <;> omega

/-- `intercalate` exposes its first chunk as a prefix. -/
theorem intercalate_head (s a : Str) (l : List Str) :
    ∃ w, List.intercalate s (a :: l) = a ++ w := by
  cases l with
  | nil => exact ⟨[], by simp [List.intercalate]⟩
  | cons b t =>
      exact ⟨s ++ List.intercalate s (b :: t), by rw [intercalate_cons₂, List.append_assoc]⟩

/-- `trimRight` keeps a keyword line and its newline intact as long as the
rest of the message still has a non-whitespace character. -/
theorem trimRight_keyword (c : Char) (kw z : Str) (hz : ∃ d ∈ z, pyIsSpace d = false) :
    trimRight (c :: kw ++ '\n' :: z) = c :: kw ++ '\n' :: trimRight z := by
  have h := trimRight_append (a := c :: kw ++ ['\n']) (b := z) hz
  simpa using h

/-- Joining a non-empty, whitespace-headed, newline-free keyword line with
a `#`-headed second line and stripping the result leaves the keyword as
the first line. -/
theorem firstLine_strip_join (c : Char) (kw w' : Str) (L : List Str)
    (hcws : pyIsSpace c = false) (hnl : ∀ d ∈ c :: kw, d ≠ '\n') :
    firstLine (pyStrip (List.intercalate (strL "\n") ((c :: kw) :: ('#' :: w') :: L)))
      = c :: kw := by
  obtain ⟨w, hw⟩ := intercalate_head (strL "\n") ('#' :: w') L
  rw [intercalate_cons₂, hw]
  have hstep : (c :: kw) ++ strL "\n" ++ ('#' :: w' ++ w)
      = c :: (kw ++ '\n' :: ('#' :: (w' ++ w))) := by
    simp only [List.append_assoc, List.cons_append, List.nil_append]
    rfl
  rw [hstep]
  unfold pyStrip
  rw [List.dropWhile_cons, if_neg (by simp [hcws])]
  show firstLine (trimRight (c :: kw ++ '\n' :: ('#' :: (w' ++ w)))) = c :: kw
  rw [trimRight_keyword c kw ('#' :: (w' ++ w)) ⟨'#', by simp, by decide⟩]
  exact firstLine_append (a := c :: kw) (b := trimRight ('#' :: (w' ++ w))) hnl

/-- When the keyword is non-empty, newline-free and does not start with
whitespace, every candidate render of the loop has it as its first line. -/
theorem firstLine_render (localOff : Int) (snapshot : Snapshot) (keyword : Str)
    (total : Nat) (site_url : Option Str) (items : List Item) (s' t' : Nat)
    (hne : keyword ≠ [])
    (hnl : ∀ d ∈ keyword, d ≠ '\n')
    (hws : ∃ c, keyword.head? = some c ∧ pyIsSpace c = false) :
    firstLine (renderContent localOff
        (_header_lines localOff snapshot keyword total site_url) items total s' t')
      = keyword := by
  obtain ⟨c, hc, hcws⟩ := hws
  cases keyword with
  | nil => exact absurd rfl hne
  | cons x xs =>
    have hx : x = c := by simpa using hc
    subst hx
    simp only [renderContent, _header_lines]
    rw [if_pos (List.cons_ne_nil x xs)]
    simp only [List.cons_append, List.nil_append, List.append_assoc, List.singleton_append]
    rw [show strL "## AI 新闻日报（近24小时）" = '#' :: strL "# AI 新闻日报（近24小时）" from rfl]
    exact firstLine_strip_join x xs _ _ hcws hnl

/-! ## Claims -/

/-- **C5, counterexample.** The claim says that whenever `limit <= 1` the
result is exactly the ellipsis character; but `shorten("a", 1)` returns
`"a"`, because the `len(s) <= limit` early return fires first. -/
theorem shorten_ellipsis_counterexample :
    (1 : Int) ≤ 1 ∧ shorten (strL "a") 1 = strL "a" ∧ shorten (strL "a") 1 ≠ strL "…" := by
  refine ⟨le_refl 1, by decide, by decide⟩

/-- **C5 (amended).** `shorten` collapses internal newlines to spaces and
trims surrounding whitespace; when the cleaned string is within `limit`
it is returned as is (even for `limit ≤ 1`); when it exceeds `limit` and
`limit ≤ 1` the result is exactly the single ellipsis character; when it
exceeds `limit` and `limit > 1` it is truncated to `limit - 1` characters
(a character count, not bytes) with one ellipsis character appended,
giving exactly `limit` characters. -/
theorem shorten_contract (text : Str) (limit : Int) :
    (((pyStrip (collapseNl text)).length : Int) ≤ limit →
      shorten text limit = pyStrip (collapseNl text)) ∧
    (limit < ((pyStrip (collapseNl text)).length : Int) → limit ≤ 1 →
      shorten text limit = ['…']) ∧
    (limit < ((pyStrip (collapseNl text)).length : Int) → 1 < limit →
      shorten text limit = (pyStrip (collapseNl text)).take (limit - 1).toNat ++ ['…'] ∧
      ((shorten text limit).length : Int) = limit) := by
  refine ⟨fun h => by simp [shorten, h], fun h1 h2 => ?_, fun h1 h2 => ?_⟩
  · simp [shorten, not_le.mpr h1, h2]
  · have heq : shorten text limit
        = (pyStrip (collapseNl text)).take (limit - 1).toNat ++ ['…'] := by
      simp [shorten, not_le.mpr h1, not_le.mpr h2]
    refine ⟨heq, ?_⟩
    rw [heq]
    simp only [List.length_append, List.length_take, List.length_cons, List.length_nil]
    omega

/-- Witness for C5 at `text = "a bc"`, `limit = 3`: the cleaned string has
4 characters, so the result is the 2-character prefix plus the ellipsis. -/
theorem shorten_contract_witness :
    shorten (strL "a bc") 3 = strL "a …" ∧ ((shorten (strL "a bc") 3).length : Int) = 3 := by
  have h := (shorten_contract (strL "a bc") 3).2.2 (by decide) (by decide)
  exact ⟨by rw [h.1]; decide, h.2⟩

/-- **C10.** For `limit ≥ 1` the result of `shorten` has at most `limit`
characters; at `limit = 0` the bound can fail: the over-long input `"ab"`
still yields the one-character ellipsis. -/
theorem shorten_length_bound :
    (∀ (text : Str) (limit : Int), 1 ≤ limit →
      ((shorten text limit).length : Int) ≤ limit) ∧
    shorten (strL "ab") 0 = strL "…" := by
  constructor
  · intro text limit hlim
    by_cases h1 : ((pyStrip (collapseNl text)).length : Int) ≤ limit
    · simp [shorten, h1]
    · by_cases h2 : limit ≤ 1
      · simp [shorten, h1, h2]
        omega
      · have hq : shorten text limit
            = (pyStrip (collapseNl text)).take (limit - 1).toNat ++ ['…'] := by
          simp [shorten, h1, h2]
        rw [hq]
        simp only [List.length_append, List.length_take, List.length_cons, List.length_nil]
        omega
  · decide

/-- Witness for C10 at `text = "abcdef"`, `limit = 3`. -/
theorem shorten_length_bound_witness :
    (1 : Int) ≤ 3 ∧ ((shorten (strL "abcdef") 3).length : Int) ≤ 3 :=
  ⟨by decide, shorten_length_bound.1 (strL "abcdef") 3 (by decide)⟩

/-- **C6.** `parse_iso_to_bj` returns the placeholder for a missing or
empty input; returns the original string unchanged when the (Z-normalized)
input does not parse as a timestamp; and renders the documented example in
UTC+8.  The ambient time zone `localOff` is irrelevant in all three cases. -/
theorem parse_iso_to_bj_contract (localOff : Int) :
    (parse_iso_to_bj localOff none = strL "--:--" ∧
     parse_iso_to_bj localOff (some []) = strL "--:--") ∧
    (∀ s : Str, s ≠ [] → parseIso (replaceZ s) = none →
      parse_iso_to_bj localOff (some s) = s) ∧
    parse_iso_to_bj localOff (some (strL "2026-02-23T01:00:00Z")) = strL "02-23 09:00" := by
  refine ⟨⟨by rfl, by rfl⟩, fun s hs hp => by simp [parse_iso_to_bj, hs, hp], ?_⟩
  have h1 : parse_iso_to_bj localOff (some (strL "2026-02-23T01:00:00Z"))
      = formatBeijing localOff ⟨2026, 2, 23, 1, 0, 0, some 0⟩ := by
    simp only [parse_iso_to_bj]
    rw [if_neg (by decide), show parseIso (replaceZ (strL "2026-02-23T01:00:00Z"))
        = some ⟨2026, 2, 23, 1, 0, 0, some 0⟩ from rfl]
  have h2 : formatBeijing localOff ⟨2026, 2, 23, 1, 0, 0, some 0⟩
      = formatBeijing 480 ⟨2026, 2, 23, 1, 0, 0, some 0⟩ := by
    simp only [formatBeijing, Option.getD_some]
  rw [h1, h2]
  decide

/-- Witness for C6 at the unparseable input `"not-a-date"`. -/
theorem parse_iso_to_bj_contract_witness :
    strL "not-a-date" ≠ [] ∧ parseIso (replaceZ (strL "not-a-date")) = none ∧
    parse_iso_to_bj 480 (some (strL "not-a-date")) = strL "not-a-date" :=
  ⟨by decide, rfl, (parse_iso_to_bj_contract 480).2.1 (strL "not-a-date") (by decide) rfl⟩

/-- A snapshot where `items_ai` is present and is a sequence (the empty
one) while `items` holds a record. -/
def c3snap : Snapshot :=
  [(strL "items_ai", .list []),
   (strL "items", .list [.dict [(strL "title", .str (strL "B"))]])]

/-- **C3, counterexample.** The claim says a present-and-sequence
`items_ai` is used exclusively (here: its record entries are the empty
selection), but the `or` chain keys on truthiness, so the empty sequence
falls through to `items` and the selection is non-empty. -/
theorem pick_ai_items_spec_counterexample :
    dget c3snap (strL "items_ai") = PyVal.list [] ∧
    pick_ai_items c3snap = [[(strL "title", PyAtom.str (strL "B"))]] ∧
    pick_ai_items c3snap ≠ [] :=
  ⟨by decide, by decide, by decide⟩

/-- **C3 (amended).** Selection keys on Python truthiness, not presence:
the value consulted is `items_ai` when that is truthy (for a truthy
non-sequence the selection is empty without consulting `items`), and
`items` otherwise — in particular an absent, `None`, or *empty-sequence*
`items_ai` falls through to `items`; the consulted value's record (dict)
entries are kept in order, non-records are discarded, and a non-sequence
consulted value yields the empty selection. -/
theorem pick_ai_items_truthiness (snapshot : Snapshot) :
    pick_ai_items snapshot =
      records_of (if pyTruthy (dget snapshot (strL "items_ai"))
                  then dget snapshot (strL "items_ai")
                  else dget snapshot (strL "items")) := by
  by_cases h1 : pyTruthy (dget snapshot (strL "items_ai")) = true
  · simp only [pick_ai_items, pyOrV, h1, if_true]
    cases hv : dget snapshot (strL "items_ai") <;> simp [records_of]
  · by_cases h2 : pyTruthy (dget snapshot (strL "items")) = true
    · simp only [pick_ai_items, pyOrV, h1, h2, if_true, if_false, Bool.false_eq_true]
      cases hv : dget snapshot (strL "items") <;> simp [records_of]
    · simp only [pick_ai_items, pyOrV, if_neg h1, if_neg h2]
      cases hv : dget snapshot (strL "items") with
      | atom a => simp [records_of]
      | list l =>
          rw [hv] at h2
          simp [pyTruthy] at h2
          subst h2
          simp [records_of]
      | dict d => simp [records_of]

/-- **C9.** `send_wecom_markdown` posts exactly the two-field markdown
payload; a non-success HTTP status (≥ 400) fails immediately (no retry
exists: the outcome is final); and after a successful status, when the
response record's `errcode` field is an integer (or absent, defaulting to
`-1`), the call fails carrying the full response body if and only if that
integer is not exactly `0`, otherwise returning the parsed record. -/
theorem send_wecom_markdown_contract (content : Str) (status : Nat) (body : PyVal) :
    (send_wecom_markdown content status body).1
      = [(strL "msgtype", PyVal.atom (.str (strL "markdown"))),
         (strL "markdown", PyVal.dict [(strL "content", PyAtom.str content)])] ∧
    (400 ≤ status → (send_wecom_markdown content status body).2 = .httpError status) ∧
    (status < 400 → ∀ (d : Item) (n : Int), body = .dict d →
      (d.lookup (strL "errcode")).getD (.int (-1)) = .int n →
      (((send_wecom_markdown content status body).2 = .pushFailed body ↔ n ≠ 0) ∧
       (n = 0 → (send_wecom_markdown content status body).2 = .ok body))) := by
  refine ⟨by rfl, fun h => by simp [send_wecom_markdown, h], fun h d n hb he => ?_⟩
  subst hb
  simp only [send_wecom_markdown, wecomPayload]
  rw [if_neg (by omega), he]
  simp only [pyInt]
  by_cases hn : n = 0 <;> simp [hn]

/-- Witness for C9: a delivered message with HTTP 200 and `errcode = 0`
returns the parsed response record. -/
theorem send_wecom_markdown_contract_witness :
    (200 : Nat) < 400 ∧
    (send_wecom_markdown (strL "hello") 200
        (.dict [(strL "errcode", PyAtom.int 0), (strL "errmsg", PyAtom.str (strL "ok"))])).2
      = .ok (.dict [(strL "errcode", PyAtom.int 0), (strL "errmsg", PyAtom.str (strL "ok"))]) := by
  refine ⟨by decide, ?_⟩
  exact ((send_wecom_markdown_contract (strL "hello") 200 _).2.2 (by decide)
      [(strL "errcode", PyAtom.int 0), (strL "errmsg", PyAtom.str (strL "ok"))] 0 rfl
      (by decide)).2 rfl

/-- **C4.** The shown-count before any size-fitting is
`min(max(top_n, 0), total)` with a fallback to `min(total, 3)` when that
is zero; consequently `top_n = 0` with a byte limit large enough that the
first candidate already fits returns `shown = min(total, 3)`. -/
theorem initial_shown_policy :
    (∀ (top_n : Int) (total : Nat),
      initial_shown top_n total =
        if min (max top_n 0) (total : Int) = 0 then min (total : Int) 3
        else min (max top_n 0) (total : Int)) ∧
    (∀ (localOff : Int) (snapshot : Snapshot) (keyword : Str) (byte_limit : Int)
        (site_url : Option Str),
      (utf8Len (renderContent localOff
          (_header_lines localOff snapshot keyword (pick_ai_items snapshot).length site_url)
          (pick_ai_items snapshot) (pick_ai_items snapshot).length
          (initial_shown 0 (pick_ai_items snapshot).length).toNat 46) : Int) ≤ byte_limit →
      (build_digest_markdown localOff snapshot keyword 0 byte_limit site_url).2
        = min (pick_ai_items snapshot).length 3) := by
  constructor
  · intro top_n total
    simp only [initial_shown]
    split_ifs <;> omega
  · intro localOff snapshot keyword byte_limit site_url hfit
    show (fitLoop localOff
        (_header_lines localOff snapshot keyword (pick_ai_items snapshot).length site_url)
        (pick_ai_items snapshot) (pick_ai_items snapshot).length byte_limit
        (min_items (pick_ai_items snapshot).length)
        (initial_shown 0 (pick_ai_items snapshot).length).toNat 46).2
      = min (pick_ai_items snapshot).length 3
    rw [fitLoop, if_pos hfit]
    have h0 : initial_shown 0 (pick_ai_items snapshot).length
        = min ((pick_ai_items snapshot).length : Int) 3 := by
      simp only [initial_shown]
      rw [if_neg (by omega)]
    rw [h0]
    omega

/-- **C1.** For every snapshot and parameters, `build_digest_markdown`
returns `(content, shown)` with either the UTF-8 byte length of `content`
within `byte_limit`, or — shrink budget exhausted — `shown` at its floor
(`1` when at least one item was selected, `0` otherwise) and `content`
the best-effort render at that floor with the title limit at its last
reachable value `18` (where `title_limit > 20` no longer holds); and
whenever at least one item is selected, the returned `shown` is `≥ 1`. -/
theorem build_digest_markdown_byte_budget (localOff : Int) (snapshot : Snapshot)
    (keyword : Str) (top_n byte_limit : Int) (site_url : Option Str) :
    ((utf8Len (build_digest_markdown localOff snapshot keyword top_n byte_limit site_url).1 : Int)
        ≤ byte_limit ∨
      ((build_digest_markdown localOff snapshot keyword top_n byte_limit site_url).2
          = min_items (pick_ai_items snapshot).length ∧
       (build_digest_markdown localOff snapshot keyword top_n byte_limit site_url).1
          = renderContent localOff
              (_header_lines localOff snapshot keyword (pick_ai_items snapshot).length site_url)
              (pick_ai_items snapshot) (pick_ai_items snapshot).length
              (min_items (pick_ai_items snapshot).length) 18)) ∧
    (0 < (pick_ai_items snapshot).length →
      1 ≤ (build_digest_markdown localOff snapshot keyword top_n byte_limit site_url).2) := by
  have hfuel : fitLoopFuel localOff
      (_header_lines localOff snapshot keyword (pick_ai_items snapshot).length site_url)
      (pick_ai_items snapshot) (pick_ai_items snapshot).length byte_limit
      (min_items (pick_ai_items snapshot).length)
      ((initial_shown top_n (pick_ai_items snapshot).length).toNat + 47)
      ((initial_shown top_n (pick_ai_items snapshot).length).toNat) 46
      = some (build_digest_markdown localOff snapshot keyword top_n byte_limit site_url) :=
    fitLoopFuel_sufficient _ _ _ _ _ _ _ _ _ (by omega)
  have hspec := fitLoopFuel_spec localOff
      (_header_lines localOff snapshot keyword (pick_ai_items snapshot).length site_url)
      (pick_ai_items snapshot) (pick_ai_items snapshot).length byte_limit
      (min_items (pick_ai_items snapshot).length)
      ((initial_shown top_n (pick_ai_items snapshot).length).toNat + 47)
      ((initial_shown top_n (pick_ai_items snapshot).length).toNat) 46
      (build_digest_markdown localOff snapshot keyword top_n byte_limit site_url).1
      (build_digest_markdown localOff snapshot keyword top_n byte_limit site_url).2
      (min_items_le_initial top_n _) (by omega) (by omega)
      (by rw [Prod.mk.eta]; exact hfuel)
  refine ⟨hspec.1, fun hpos => ?_⟩
  have hm : min_items (pick_ai_items snapshot).length = 1 := by
    unfold min_items
    rw [if_neg (by omega)]
  have h2 := hspec.2.1
  omega

/-- A one-item snapshot used as a concrete witness input. -/
def wSnapshot : Snapshot :=
  [(strL "generated_at", .atom (.str (strL "2026-02-23T02:00:00Z"))),
   (strL "items_ai", .list
     [.dict [(strL "title", .str (strL "标题一")),
             (strL "url", .str (strL "https://example.com/1")),
             (strL "site_name", .str (strL "NewsNow")),
             (strL "source", .str (strL "demo")),
             (strL "published_at", .str (strL "2026-02-23T01:00:00Z"))]])]

/-- Witness for C1: a snapshot with one selected item yields `shown ≥ 1`. -/
theorem build_digest_markdown_byte_budget_witness :
    0 < (pick_ai_items wSnapshot).length ∧
    1 ≤ (build_digest_markdown 480 wSnapshot (strL "AI新闻雷达") 12 3800 none).2 :=
  ⟨by decide,
   (build_digest_markdown_byte_budget 480 wSnapshot (strL "AI新闻雷达") 12 3800 none).2
     (by decide)⟩

/-- **C2.** Every iteration of the size-fitting loop strictly decreases
`shown + title_limit` (decrementing `shown` above its floor, else
`title_limit` by 4 while above 20), so an iteration budget of
`shown + title_limit + 1` always completes with the loop's value; in
particular `build_digest_markdown` is computed by its loop within
`initial_shown + 47` iterations on every input. -/
theorem fitLoop_terminates :
    (∀ (localOff : Int) (header : List Str) (items : List Item) (total : Nat)
        (byte_limit : Int) (mi shown tl : Nat),
      fitLoopFuel localOff header items total byte_limit mi (shown + tl + 1) shown tl
        = some (fitLoop localOff header items total byte_limit mi shown tl)) ∧
    (∀ (localOff : Int) (snapshot : Snapshot) (keyword : Str) (top_n byte_limit : Int)
        (site_url : Option Str),
      fitLoopFuel localOff
          (_header_lines localOff snapshot keyword (pick_ai_items snapshot).length site_url)
          (pick_ai_items snapshot) (pick_ai_items snapshot).length byte_limit
          (min_items (pick_ai_items snapshot).length)
          ((initial_shown top_n (pick_ai_items snapshot).length).toNat + 47)
          ((initial_shown top_n (pick_ai_items snapshot).length).toNat) 46
        = some (build_digest_markdown localOff snapshot keyword top_n byte_limit site_url)) := by
  constructor
  · intro localOff header items total byte_limit mi shown tl
    exact fitLoopFuel_sufficient _ _ _ _ _ _ _ _ _ (by omega)
  · intro localOff snapshot keyword top_n byte_limit site_url
    exact fitLoopFuel_sufficient _ _ _ _ _ _ _ _ _ (by omega)

/-- **C8.** A snapshot with zero selected items returns `shown = 0` and a
header-only content (so no numbered item lines and no truncation remark),
whose item-count line renders `0`. -/
theorem build_digest_markdown_empty (localOff : Int) (snapshot : Snapshot)
    (keyword : Str) (top_n byte_limit : Int) (site_url : Option Str)
    (h : pick_ai_items snapshot = []) :
    (build_digest_markdown localOff snapshot keyword top_n byte_limit site_url).2 = 0 ∧
    (build_digest_markdown localOff snapshot keyword top_n byte_limit site_url).1
      = pyStrip (List.intercalate (strL "\n")
          (_header_lines localOff snapshot keyword 0 site_url)) ∧
    strL "> AI 相关条数：0" ∈ _header_lines localOff snapshot keyword 0 site_url := by
  have hb : build_digest_markdown localOff snapshot keyword top_n byte_limit site_url
      = fitLoop localOff (_header_lines localOff snapshot keyword 0 site_url)
          [] 0 byte_limit 0 0 46 := by
    simp [build_digest_markdown, h, min_items, initial_shown_zero]
  have hfuel := fitLoopFuel_sufficient localOff
      (_header_lines localOff snapshot keyword 0 site_url) [] 0 byte_limit 0 47 0 46
      (by omega)
  rw [← hb] at hfuel
  have hspec := fitLoopFuel_spec localOff
      (_header_lines localOff snapshot keyword 0 site_url) [] 0 byte_limit 0 47 0 46
      (build_digest_markdown localOff snapshot keyword top_n byte_limit site_url).1
      (build_digest_markdown localOff snapshot keyword top_n byte_limit site_url).2
      (le_refl 0) (by omega) (by omega) (by rw [Prod.mk.eta]; exact hfuel)
  obtain ⟨s', t', hshape⟩ := fitLoopFuel_shape localOff
      (_header_lines localOff snapshot keyword 0 site_url) [] 0 byte_limit 0 47 0 46
      (build_digest_markdown localOff snapshot keyword top_n byte_limit site_url).1
      (build_digest_markdown localOff snapshot keyword top_n byte_limit site_url).2
      (by rw [Prod.mk.eta]; exact hfuel)
  refine ⟨?_, ?_, ?_⟩
  · have h1 := hspec.2.1
    have h2 := hspec.2.2
    omega
  · rw [hshape, renderContent_nil]
  · rw [show strL "> AI 相关条数：0" = strL "> AI 相关条数：" ++ natStr 0 from rfl]
    simp [_header_lines]

/-- Witness for C8: the empty snapshot selects no items and shows zero. -/
theorem build_digest_markdown_empty_witness :
    pick_ai_items ([] : Snapshot) = [] ∧
    (build_digest_markdown 480 [] (strL "AI新闻雷达") 12 3800 none).2 = 0 :=
  ⟨by decide,
   (build_digest_markdown_empty 480 [] (strL "AI新闻雷达") 12 3800 none (by decide)).1⟩

/-- **C7, counterexample.** The claim quantifies over *every* non-empty
keyword, but a keyword with leading whitespace is eaten by the final
`content.strip()`: with keyword `" A"` the first line of the digest is
`"A"`, not `" A"`. -/
theorem keyword_first_line_counterexample :
    strL " A" ≠ [] ∧
    firstLine (build_digest_markdown 480 [] (strL " A") 12 3800 none).1 ≠ strL " A" := by
  have hb : build_digest_markdown 480 [] (strL " A") 12 3800 none
      = fitLoop 480 (_header_lines 480 [] (strL " A") 0 none) [] 0 3800 0 0 46 := by
    simp [build_digest_markdown, min_items, initial_shown_zero,
      show pick_ai_items ([] : Snapshot) = [] from rfl]
  have hfuel := fitLoopFuel_sufficient 480 (_header_lines 480 [] (strL " A") 0 none)
      [] 0 3800 0 47 0 46 (by omega)
  rw [← hb] at hfuel
  have hv : (fitLoopFuel 480 (_header_lines 480 [] (strL " A") 0 none) [] 0 3800 0 47 0 46).map
      (fun r => firstLine r.1) = some (strL "A") := by decide
  rw [hfuel] at hv
  simp only [Option.map_some'] at hv
  rw [Option.some_inj] at hv
  exact ⟨by decide, by rw [hv]; decide⟩

/-- **C7 (amended).** For every snapshot and every keyword that is
non-empty, contains no newline, and does not begin with a whitespace
character (so the final `strip()` leaves it intact), the first line of
the content returned by `build_digest_markdown` is exactly that
keyword. -/
theorem keyword_first_line (localOff : Int) (snapshot : Snapshot) (keyword : Str)
    (top_n byte_limit : Int) (site_url : Option Str)
    (hne : keyword ≠ [])
    (hnl : ∀ d ∈ keyword, d ≠ '\n')
    (hws : ∃ c, keyword.head? = some c ∧ pyIsSpace c = false) :
    firstLine (build_digest_markdown localOff snapshot keyword top_n byte_limit site_url).1
      = keyword := by
  have hfuel : fitLoopFuel localOff
      (_header_lines localOff snapshot keyword (pick_ai_items snapshot).length site_url)
      (pick_ai_items snapshot) (pick_ai_items snapshot).length byte_limit
      (min_items (pick_ai_items snapshot).length)
      ((initial_shown top_n (pick_ai_items snapshot).length).toNat + 47)
      ((initial_shown top_n (pick_ai_items snapshot).length).toNat) 46
      = some (build_digest_markdown localOff snapshot keyword top_n byte_limit site_url) :=
    fitLoopFuel_sufficient _ _ _ _ _ _ _ _ _ (by omega)
  obtain ⟨s', t', hshape⟩ := fitLoopFuel_shape localOff
      (_header_lines localOff snapshot keyword (pick_ai_items snapshot).length site_url)
      (pick_ai_items snapshot) (pick_ai_items snapshot).length byte_limit
      (min_items (pick_ai_items snapshot).length)
      ((initial_shown top_n (pick_ai_items snapshot).length).toNat + 47)
      ((initial_shown top_n (pick_ai_items snapshot).length).toNat) 46
      (build_digest_markdown localOff snapshot keyword top_n byte_limit site_url).1
      (build_digest_markdown localOff snapshot keyword top_n byte_limit site_url).2
      (by rw [Prod.mk.eta]; exact hfuel)
  rw [hshape]
  exact firstLine_render localOff snapshot keyword (pick_ai_items snapshot).length site_url
      (pick_ai_items snapshot) s' t' hne hnl hws

/-- Witness for C7 at the script's default keyword. -/
theorem keyword_first_line_witness :
    strL "AI新闻雷达" ≠ [] ∧
    firstLine (build_digest_markdown 480 wSnapshot (strL "AI新闻雷达") 12 3800 none).1
      = strL "AI新闻雷达" :=
  ⟨by decide,
   keyword_first_line 480 wSnapshot (strL "AI新闻雷达") 12 3800 none (by decide)
     (by decide) ⟨'A', rfl, by decide⟩⟩

/-- A four-item snapshot used as a concrete witness input for the
`top_n = 0` fallback. -/
def c4snap : Snapshot :=
  [(strL "items_ai", .list
     [.dict [(strL "title", .str (strL "a"))],
      .dict [(strL "title", .str (strL "b"))],
      .dict [(strL "title", .str (strL "c"))],
      .dict [(strL "title", .str (strL "d"))]])]

set_option maxRecDepth 100000 in
/-- Witness for C4: `top_n = 0` over four items with a large byte limit
shows `min(4, 3) = 3` items. -/
theorem initial_shown_policy_witness :
    (build_digest_markdown 480 c4snap (strL "AI新闻雷达") 0 100000 none).2
        = min (pick_ai_items c4snap).length 3 ∧
    min (pick_ai_items c4snap).length 3 = 3 :=
  ⟨initial_shown_policy.2 480 c4snap (strL "AI新闻雷达") 100000 none (by decide),
   by decide⟩
